import Mathlib

/-!
Verification of the MomentumIGT optimizer (torch_igt/igt.py).

The optimizer operates element-wise on tensors, so each tensor buffer is
modelled by a single rational scalar (ℚ stands in for the real-number
semantics of the floating-point arithmetic).  A `Param` carries the
caller-visible value `p.data`, the caller-supplied gradient `p.grad`
(absent or present), and the optimizer's per-parameter state dictionary
`self.state[p]`, whose possibly-missing keys `igt_velocity`,
`true_params` and `momentum_velocity` are modelled as `Option ℚ` fields.
A `Group` is one entry of `self.param_groups`: the hyperparameters, the
mutable counters `num_steps` and `transported`, and the parameter list.
Dictionary misses (Python `KeyError`) are modelled with `Except String`.
-/

namespace TorchIGT

/-- One parameter as the optimizer sees it: the exposed value `p.data`,
the gradient buffer `p.grad` (possibly absent), and the three state
entries of `self.state[p]`, each possibly missing. -/
structure Param where
  data : ℚ
  grad : Option ℚ
  igt_velocity : Option ℚ
  true_params : Option ℚ
  momentum_velocity : Option ℚ
  deriving Repr, DecidableEq

/-- One parameter group: hyperparameters, group counters, parameters.
Mirrors the `defaults` dictionary of `MomentumIGT.__init__` plus
`group['params']`. -/
structure Group where
  lr : ℚ
  momentum : ℚ
  dampening : ℚ
  weight_decay : ℚ
  nesterov : Bool
  delta : ℚ
  num_steps : ℕ
  transported : Bool
  params : List Param
  deriving Repr, DecidableEq

instance exceptDecEq {ε α : Type} [DecidableEq ε] [DecidableEq α] :
    DecidableEq (Except ε α)
  | .ok x, .ok y =>
    if h : x = y then .isTrue (congrArg Except.ok h)
    else .isFalse (fun hc => h (Except.ok.inj hc))
  | .error e, .error f =>
    if h : e = f then .isTrue (congrArg Except.error h)
    else .isFalse (fun hc => h (Except.error.inj hc))
  | .ok _, .error _ => .isFalse (fun hc => Except.noConfusion hc)
  | .error _, .ok _ => .isFalse (fun hc => Except.noConfusion hc)

/-- A fresh parameter wrapping an initial value: no gradient, no state. -/
def initParam (x : ℚ) : Param :=
  { data := x, grad := none, igt_velocity := none, true_params := none,
    momentum_velocity := none }

/-- `MomentumIGT.__init__` (igt.py lines 46-70): validates `weight_decay`,
`delta` and the nesterov/momentum/dampening combination, in source order,
and otherwise builds one parameter group with `num_steps = 0` and
`transported = True`.  There is no validation of `lr` in the source. -/
def MomentumIGT.init (params : List ℚ) (lr momentum dampening weight_decay : ℚ)
    (nesterov : Bool) (delta : ℚ) : Except String Group :=
  if weight_decay < 0 then .error "Invalid weight_decay value"
  else if delta ≤ 0 then .error "Invalid delta value"
  else if nesterov = true ∧ (momentum ≤ 0 ∨ dampening ≠ 0) then
    .error "Nesterov momentum requires a momentum and zero dampening"
  else
    .ok { lr := lr, momentum := momentum, dampening := dampening,
          weight_decay := weight_decay, nesterov := nesterov, delta := delta,
          num_steps := 0, transported := true, params := params.map initParam }

/-- igt.py lines 107-108: `if weight_decay != 0: d_p.add_(weight_decay, p.data)`.
The effective gradient after the in-place weight-decay write.  Note the
source uses `p.data` (the exposed, transported value), not `true_params`. -/
def effGrad (weight_decay g data : ℚ) : ℚ :=
  if weight_decay ≠ 0 then g + weight_decay * data else g

/-- igt.py lines 142-166: advance `true_params` and rewrite `p.data` to the
transported value, by the three cases (no momentum / nesterov / heavyball).
`d_p` is the (possibly weight-decayed) gradient buffer, which aliases
`p.grad.data` in the source, hence `grad := some d_p` in the result.
Line 151 re-reads `param_state['momentum_velocity']`; a missing key is a
`KeyError`. -/
def updateParams (lr momentum future_transport : ℚ) (nesterov : Bool)
    (d_p v tp : ℚ) (mv : Option ℚ) : Except String Param :=
  if momentum = 0 then
    let tp2 := tp - lr * v
    .ok { data := tp2 - lr * future_transport * v, grad := some d_p,
          igt_velocity := some v, true_params := some tp2,
          momentum_velocity := mv }
  else
    match mv with
    | some w =>
      if nesterov then
        let tp2 := tp - lr * v - lr * momentum * w
        .ok { data := tp2 - lr * future_transport * v
                        - lr * momentum * future_transport * w,
              grad := some d_p, igt_velocity := some v, true_params := some tp2,
              momentum_velocity := some w }
      else
        let tp2 := tp - lr * w
        .ok { data := tp2 - lr * future_transport * w, grad := some d_p,
              igt_velocity := some v, true_params := some tp2,
              momentum_velocity := some w }
    | none => .error "KeyError: momentum_velocity"

/-- igt.py lines 98-166, the body of the per-parameter loop of
`MomentumIGT.step`.  A parameter with no gradient is skipped (lines
100-101).  At `num_steps == 0` the state buffers are created when missing
(lines 111-126); otherwise the existing buffers are read and a missing
key is a `KeyError` (lines 129-140). -/
def stepParam (lr momentum dampening weight_decay : ℚ) (nesterov : Bool)
    (gamma future_transport : ℚ) (num_steps : ℕ) (p : Param) :
    Except String Param :=
  match p.grad with
  | none => .ok p
  | some g =>
    let d_p := effGrad weight_decay g p.data
    if num_steps = 0 then
      let v := p.igt_velocity.getD 0 + d_p
      let tp := p.true_params.getD p.data
      let mv : Option ℚ :=
        if momentum ≠ 0 then some (p.momentum_velocity.getD 0 + v)
        else p.momentum_velocity
      updateParams lr momentum future_transport nesterov d_p v tp mv
    else
      match p.igt_velocity with
      | none => .error "KeyError: igt_velocity"
      | some v0 =>
        match p.true_params with
        | none => .error "KeyError: true_params"
        | some tp =>
          let v := gamma * v0 + (1 - gamma) * d_p
          if momentum ≠ 0 then
            match p.momentum_velocity with
            | some w0 =>
              updateParams lr momentum future_transport nesterov d_p v tp
                (some (momentum * w0 + (1 - dampening) * v))
            | none => .error "KeyError: momentum_velocity"
          else
            updateParams lr momentum future_transport nesterov d_p v tp
              p.momentum_velocity

/-- Left-to-right effectful map over a list, mirroring the Python `for`
loop over `group['params']`: the first raised `KeyError` propagates. -/
def mapE {α β : Type} (f : α → Except String β) : List α → Except String (List β)
  | [] => .ok []
  | x :: xs =>
    match f x with
    | .error e => .error e
    | .ok y =>
      match mapE f xs with
      | .error e => .error e
      | .ok ys => .ok (y :: ys)

/-- The per-parameter body of one `step` call of a group, with `gamma`,
`future_gamma` and `future_transport` computed from the current
`num_steps` (igt.py lines 94-96). -/
def Group.stepFun (G : Group) : Param → Except String Param :=
  let gamma := (G.num_steps : ℚ) / ((G.num_steps : ℚ) + G.delta)
  let future_gamma := ((G.num_steps : ℚ) + 1) / ((G.num_steps : ℚ) + 1 + G.delta)
  let future_transport := future_gamma / (1 - future_gamma)
  stepParam G.lr G.momentum G.dampening G.weight_decay G.nesterov
    gamma future_transport G.num_steps

/-- `MomentumIGT.step` restricted to one group (igt.py lines 85-168):
run the per-parameter body over all parameters, then increment
`num_steps` by one. -/
def Group.step (G : Group) : Except String Group :=
  (mapE G.stepFun G.params).map
    (fun ps => { G with params := ps, num_steps := G.num_steps + 1 })

/-- igt.py lines 189-204, the per-parameter body of `MomentumIGT.train`:
re-project `p.data` to `true_params` minus the transport offset, reading
the state buffers (a missing key raises `KeyError`). -/
def trainParam (lr momentum : ℚ) (nesterov : Bool) (transport : ℚ)
    (p : Param) : Except String Param :=
  match p.igt_velocity with
  | none => .error "KeyError: igt_velocity"
  | some v =>
    match p.true_params with
    | none => .error "KeyError: true_params"
    | some tp =>
      if momentum = 0 then
        .ok { p with data := tp - lr * transport * v }
      else
        match p.momentum_velocity with
        | some w =>
          if nesterov then
            .ok { p with data := tp - lr * transport * v
                            - lr * momentum * transport * w }
          else
            .ok { p with data := tp - lr * transport * w }
        | none => .error "KeyError: momentum_velocity"

/-- `MomentumIGT.train` restricted to one group (igt.py lines 171-205):
when `transported` is false and `num_steps > 0`, re-project every
parameter with `transport = gamma/(1-gamma)` at the current `num_steps`
and set `transported := true`; otherwise do nothing. -/
def Group.train (G : Group) : Except String Group :=
  let gamma := (G.num_steps : ℚ) / ((G.num_steps : ℚ) + G.delta)
  let transport := gamma / (1 - gamma)
  if G.transported = false ∧ 0 < G.num_steps then
    (mapE (trainParam G.lr G.momentum G.nesterov transport) G.params).map
      (fun ps => { G with params := ps, transported := true })
  else .ok G

/-- `MomentumIGT.eval` restricted to one group (igt.py lines 207-213):
when `transported` is true, copy `self.state[p]['true_params']` into
`p.data` for every parameter (missing key raises `KeyError`) and set
`transported := false`; otherwise do nothing. -/
def Group.eval (G : Group) : Except String Group :=
  if G.transported = true then
    (mapE (fun p => match p.true_params with
      | some tp => Except.ok { p with data := tp }
      | none => Except.error "KeyError: true_params") G.params).map
      (fun ps => { G with params := ps, transported := false })
  else .ok G

/-- Caller supplying fresh gradients for the next `step` call, one entry
per parameter (`none` = gradient absent). -/
def setGrads (gs : List (Option ℚ)) (G : Group) : Group :=
  { G with params := List.zipWith (fun g p => { p with grad := g }) gs G.params }

/-- A one-parameter group in its initial state with a gradient supplied. -/
def mkGroup1 (lr momentum dampening weight_decay : ℚ) (nesterov : Bool)
    (delta p0 : ℚ) (g : Option ℚ) : Group :=
  { lr := lr, momentum := momentum, dampening := dampening,
    weight_decay := weight_decay, nesterov := nesterov, delta := delta,
    num_steps := 0, transported := true,
    params := [{ data := p0, grad := g, igt_velocity := none,
                 true_params := none, momentum_velocity := none }] }

/-- First parameter of a successful result. -/
def firstParam (r : Except String Group) : Option Param :=
  match r with
  | .ok G => G.params.head?
  | .error _ => none

/-- `true_params` of the first parameter of a successful result. -/
def firstTP (r : Except String Group) : Option ℚ :=
  match r with
  | .ok G => G.params.head?.bind Param.true_params
  | .error _ => none

/-- `momentum_velocity` of the first parameter of a successful result. -/
def firstMV (r : Except String Group) : Option ℚ :=
  match r with
  | .ok G => G.params.head?.bind Param.momentum_velocity
  | .error _ => none

/-- Whether the call raised (a `KeyError` propagated). -/
def isErr (r : Except String Group) : Bool :=
  match r with
  | .error _ => true
  | .ok _ => false

/-- `igt_velocity` of the parameter after one `stepParam` body, `none` on
a raised error. -/
def velAfter (lr momentum dampening weight_decay : ℚ) (nesterov : Bool)
    (gamma future_transport : ℚ) (num_steps : ℕ) (p : Param) : Option ℚ :=
  match stepParam lr momentum dampening weight_decay nesterov gamma
      future_transport num_steps p with
  | .ok q => q.igt_velocity
  | .error _ => none

/-- Gradient buffer of the parameter after one `stepParam` body, `none`
on a raised error. -/
def gradAfter (lr momentum dampening weight_decay : ℚ) (nesterov : Bool)
    (gamma future_transport : ℚ) (num_steps : ℕ) (p : Param) : Option ℚ :=
  match stepParam lr momentum dampening weight_decay nesterov gamma
      future_transport num_steps p with
  | .ok q => q.grad
  | .error _ => none

/-- The concrete group of claim C1 after the caller supplied gradient 2:
momentum 0, weight decay 0, lr 1/10, delta 1, one parameter at 1. -/
def c1Start : Group :=
  { lr := 1/10, momentum := 0, dampening := 0, weight_decay := 0,
    nesterov := false, delta := 1, num_steps := 0, transported := true,
    params := [{ data := 1, grad := some 2, igt_velocity := none,
                 true_params := none, momentum_velocity := none }] }

/-- Claim C1: with momentum 0, weight decay 0, one parameter with initial
value 1, lr = 1/10, delta = 1, gradient 2 at the first step call:
`igt_velocity = 2`, `true_params = 1 - (1/10)*2 = 4/5 = 0.8`, and the
exposed value is `4/5 - (1/10)*future_transport*2 = 3/5 = 0.6`, since
`future_transport(0) = (1/2)/(1-1/2) = 1`. -/
theorem c1_first_step_values :
    (MomentumIGT.init [(1 : ℚ)] (1/10) 0 0 0 false 1).map (setGrads [some 2])
      = .ok c1Start ∧
    c1Start.step
      = .ok { c1Start with
              num_steps := 1,
              params := [{ data := 3/5, grad := some 2, igt_velocity := some 2,
                           true_params := some (4/5),
                           momentum_velocity := none }] } := by
  refine ⟨rfl, ?_⟩
  simp only [c1Start, Group.step, Group.stepFun, mapE, stepParam, effGrad, updateParams]
  norm_num [Except.map]

/-- Claim C5: construction errors exactly for `weight_decay < 0`, or
`delta ≤ 0`, or `nesterov` with `momentum ≤ 0` or `dampening ≠ 0`; a
raised error means no optimizer (no `Group`) is constructed, and valid
values of these raise none of the errors. -/
theorem c5_construction_validation (lr momentum dampening weight_decay : ℚ)
    (nesterov : Bool) (delta : ℚ) (ps : List ℚ) :
    (∃ e, MomentumIGT.init ps lr momentum dampening weight_decay nesterov delta
        = .error e)
      ↔ (weight_decay < 0 ∨ delta ≤ 0 ∨
          (nesterov = true ∧ (momentum ≤ 0 ∨ dampening ≠ 0))) := by
  unfold MomentumIGT.init
  split_ifs with h1 h2 h3 <;> simp_all

/-- Claim C6 is falsified here: `MomentumIGT.__init__` performs no
validation of `lr`, so constructing with `lr = -1` (and otherwise valid
hyperparameters) succeeds instead of raising a configuration error. -/
theorem c6_counterexample_negative_lr :
    MomentumIGT.init [(1 : ℚ)] (-1) 0 0 0 false 1
      = .ok { lr := -1, momentum := 0, dampening := 0, weight_decay := 0,
              nesterov := false, delta := 1, num_steps := 0,
              transported := true, params := [initParam 1] } := by
  rfl

/-- Claim C6, amended: `lr` is not validated at construction time; for
every `lr` value (in particular every `lr ≤ 0`), construction with
otherwise valid hyperparameters succeeds and raises no error. -/
theorem c6_amended_lr_not_validated (lr : ℚ) (ps : List ℚ) :
    MomentumIGT.init ps lr 0 0 0 false 1
      = .ok { lr := lr, momentum := 0, dampening := 0, weight_decay := 0,
              nesterov := false, delta := 1, num_steps := 0,
              transported := true, params := ps.map initParam } := by
  rfl

/-- A one-parameter group in its initial state: `num_steps = 0`,
`transported = true`, no gradient supplied, no per-parameter state. -/
def freshG : Group := mkGroup1 (1/10) 0 0 0 false 1 1 none

/-- Claim C2 is falsified here: a parameter whose first gradient arrives
when `num_steps > 0` does not get its state created — the second step
call raises a missing-state `KeyError` instead (buffers are only
initialized inside the `num_steps == 0` branch, igt.py lines 111-118). -/
theorem c2_counterexample :
    freshG.step = .ok { freshG with num_steps := 1 } ∧
    (setGrads [some 1] { freshG with num_steps := 1 }).step
      = .error "KeyError: igt_velocity" := by
  exact ⟨rfl, rfl⟩

/-- Claim C2, amended: per-parameter state (`igt_velocity`,
`true_params`, and `momentum_velocity` exactly when `momentum ≠ 0`) is
created during the group's first step call (`num_steps == 0`) for a
parameter with a gradient; a parameter whose first gradient arrives when
`num_steps > 0` instead causes the step call to raise a missing-state
error; and a later step call on a parameter with existing state reuses
the stored velocity rather than re-allocating it. -/
theorem c2_amended_state_creation (lr momentum dampening weight_decay : ℚ)
    (nesterov : Bool) (delta p0 g : ℚ) (n : ℕ) (x v tp gamma ft g2 : ℚ) :
    (firstParam ((mkGroup1 lr momentum dampening weight_decay nesterov delta p0
          (some g)).step)).map
        (fun p => (p.igt_velocity.isSome, p.true_params.isSome,
                   p.momentum_velocity.isSome))
      = some (true, true, decide (momentum ≠ 0)) ∧
    isErr ({ mkGroup1 lr momentum dampening weight_decay nesterov delta p0
              (some g) with num_steps := n + 1 } : Group).step = true ∧
    velAfter lr 0 dampening 0 nesterov gamma ft (n + 1)
        { data := x, grad := some g2, igt_velocity := some v,
          true_params := some tp, momentum_velocity := none }
      = some (gamma * v + (1 - gamma) * g2) := by
  refine ⟨?_, ?_, ?_⟩
  · rcases eq_or_ne momentum 0 with hm | hm <;> cases nesterov <;>
      simp [mkGroup1, Group.step, Group.stepFun, mapE, stepParam, effGrad, updateParams,
            firstParam, Except.map, hm]
  · simp [mkGroup1, Group.step, Group.stepFun, mapE, stepParam, isErr, Except.map]
  · simp [velAfter, stepParam, effGrad, updateParams]

/-- The concrete group of the C3/C4 counterexamples: weight decay 1,
lr 1/10, momentum 0, delta 1, one parameter at 1 with gradient 1. -/
def c3g0 : Group := mkGroup1 (1/10) 0 0 1 false 1 1 (some 1)

/-- `c3g0` after its first step call: the gradient buffer was mutated in
place to `1 + 1*1 = 2`, `igt_velocity = 2`, `true_params = 4/5`, exposed
value `3/5`. -/
def c3g1 : Group :=
  { lr := 1/10, momentum := 0, dampening := 0, weight_decay := 1,
    nesterov := false, delta := 1, num_steps := 1, transported := true,
    params := [{ data := 3/5, grad := some 2, igt_velocity := some 2,
                 true_params := some (4/5), momentum_velocity := none }] }

/-- `c3g1` after the caller supplies gradient 1 and steps again: the
effective gradient is `1 + 1*(3/5) = 8/5` (built from the exposed value
`3/5`, not from `true_params = 4/5`), so `igt_velocity` becomes
`(1/2)*2 + (1/2)*(8/5) = 9/5`. -/
def c3g2 : Group :=
  { lr := 1/10, momentum := 0, dampening := 0, weight_decay := 1,
    nesterov := false, delta := 1, num_steps := 2, transported := true,
    params := [{ data := 13/50, grad := some (8/5), igt_velocity := some (9/5),
                 true_params := some (31/50), momentum_velocity := none }] }

/-- Claim C3 is falsified here: at the second step call the velocity
update uses the effective gradient `g + weight_decay * p.data` (exposed
value), producing `igt_velocity = 9/5`, whereas the claimed formula
`gamma * v + (1 - gamma) * (g + weight_decay * true_params)`
`= (1/2)*2 + (1/2)*(1 + 1*(4/5)) = 19/10 ≠ 9/5`. -/
theorem c3_counterexample :
    c3g0.step = .ok c3g1 ∧
    (setGrads [some 1] c3g1).step = .ok c3g2 ∧
    c3g2.params.map Param.igt_velocity = [some (9/5)] ∧
    ((1 : ℚ)/2 * 2 + (1 - 1/2) * (1 + 1 * (4/5)) = 19/10) ∧
    (9/5 : ℚ) ≠ 19/10 := by
  refine ⟨?_, ?_, rfl, by norm_num, by norm_num⟩
  · simp only [c3g0, c3g1, mkGroup1, Group.step, Group.stepFun, mapE, stepParam, effGrad,
      updateParams]
    norm_num [Except.map]
  · simp only [c3g1, c3g2, setGrads, Group.step, Group.stepFun, mapE, stepParam, effGrad,
      updateParams, List.zipWith]
    norm_num [Except.map]

/-- Claim C3, amended: in every step call the effective gradient used for
the velocity update is `g + weight_decay * p.data` — built from the
currently exposed (transported) parameter value, not from `true_params`
(the two coincide only at the group's first step, where `true_params` is
snapshotted from `p.data`).  First conjunct: first step
(`igt_velocity = 0 + effective gradient`); second: any later step. -/
theorem c3_amended_effective_gradient (lr momentum dampening weight_decay : ℚ)
    (nesterov : Bool) (gamma ft : ℚ) (n : ℕ) (x g v tp w : ℚ) :
    velAfter lr momentum dampening weight_decay nesterov gamma ft 0
        { data := x, grad := some g, igt_velocity := none, true_params := none,
          momentum_velocity := none }
      = some (if weight_decay = 0 then g else g + weight_decay * x) ∧
    velAfter lr momentum dampening weight_decay nesterov gamma ft (n + 1)
        { data := x, grad := some g, igt_velocity := some v,
          true_params := some tp, momentum_velocity := some w }
      = some (gamma * v + (1 - gamma)
                * (if weight_decay = 0 then g else g + weight_decay * x)) := by
  refine ⟨?_, ?_⟩ <;>
    rcases eq_or_ne momentum 0 with hm | hm <;>
    rcases eq_or_ne weight_decay 0 with hw | hw <;>
    cases nesterov <;>
    simp [velAfter, stepParam, effGrad, updateParams, hm, hw]

/-- Claim C4 is falsified here: with `weight_decay = 1` the step call
mutates the caller-owned gradient buffer in place — the gradient is
`some 1` before the call and `some 2 = some (1 + 1 * 1)` after it. -/
theorem c4_counterexample :
    c3g0.params.map Param.grad = [some 1] ∧
    c3g0.weight_decay = 1 ∧
    c3g0.step = .ok c3g1 ∧
    c3g1.params.map Param.grad = [some 2] ∧
    some (2 : ℚ) ≠ some (1 : ℚ) := by
  refine ⟨rfl, rfl, ?_, rfl, by norm_num⟩
  simp only [c3g0, c3g1, mkGroup1, Group.step, Group.stepFun, mapE, stepParam, effGrad,
    updateParams]
  norm_num [Except.map]

/-- Claim C4, amended: a step call leaves the caller-owned gradient
buffer unchanged exactly when `weight_decay = 0`; when
`weight_decay ≠ 0` it writes `g + weight_decay * p.data` into the
gradient buffer in place (igt.py line 108 mutates `p.grad.data`).
First conjunct: the group's first step; second: any later step. -/
theorem c4_amended_gradient_mutation (lr momentum dampening weight_decay : ℚ)
    (nesterov : Bool) (gamma ft : ℚ) (n : ℕ) (x g v tp w : ℚ) :
    gradAfter lr momentum dampening weight_decay nesterov gamma ft 0
        { data := x, grad := some g, igt_velocity := none, true_params := none,
          momentum_velocity := none }
      = some (if weight_decay = 0 then g else g + weight_decay * x) ∧
    gradAfter lr momentum dampening weight_decay nesterov gamma ft (n + 1)
        { data := x, grad := some g, igt_velocity := some v,
          true_params := some tp, momentum_velocity := some w }
      = some (if weight_decay = 0 then g else g + weight_decay * x) := by
  refine ⟨?_, ?_⟩ <;>
    rcases eq_or_ne momentum 0 with hm | hm <;>
    rcases eq_or_ne weight_decay 0 with hw | hw <;>
    cases nesterov <;>
    simp [gradAfter, stepParam, effGrad, updateParams, hm, hw]

/-- Elimination principle for a successful `mapE` run: the lengths agree
and each output is the successful image of the input at the same
position (the loop processes the parameters in order). -/
theorem mapE_ok_get {α β : Type} (f : α → Except String β) :
    ∀ (xs : List α) (ys : List β), mapE f xs = .ok ys →
      xs.length = ys.length ∧
      ∀ i (h1 : i < xs.length) (h2 : i < ys.length),
        f (xs.get ⟨i, h1⟩) = .ok (ys.get ⟨i, h2⟩) := by
  intro xs
  induction xs with
  | nil =>
    intro ys h
    simp only [mapE, Except.ok.injEq] at h
    subst h
    exact ⟨rfl, fun i h1 _ => absurd h1 (Nat.not_lt_zero i)⟩
  | cons x xs ih =>
    intro ys h
    cases hfx : f x with
    | error e => simp [mapE, hfx] at h
    | ok y =>
      cases hmx : mapE f xs with
      | error e => simp [mapE, hfx, hmx] at h
      | ok ys2 =>
        simp only [mapE, hfx, hmx, Except.ok.injEq] at h
        subst h
        obtain ⟨hlen, hget⟩ := ih ys2 hmx
        refine ⟨by simp [hlen], ?_⟩
        intro i h1 h2
        match i with
        | 0 => simpa using hfx
        | Nat.succ j =>
          simpa using hget j (Nat.lt_of_succ_lt_succ h1)
            (Nat.lt_of_succ_lt_succ h2)

/-- A parameter with no gradient supplied is skipped entirely by the step
body (igt.py lines 100-101). -/
theorem stepFun_no_grad (G : Group) (p : Param) (h : p.grad = none) :
    G.stepFun p = .ok p := by
  simp [Group.stepFun, stepParam, h]

/-- Claim C7: in every step call that completes, every parameter whose
gradient is absent keeps its exact prior record (`igt_velocity`,
`momentum_velocity`, `true_params` and the exposed `data` all unchanged),
while the group's `num_steps` still increases by exactly one. -/
theorem c7_absent_gradient_skipped (G G' : Group) (h : G.step = .ok G') :
    G'.num_steps = G.num_steps + 1 ∧
    ∀ i (h1 : i < G.params.length) (h2 : i < G'.params.length),
      (G.params.get ⟨i, h1⟩).grad = none →
      G'.params.get ⟨i, h2⟩ = G.params.get ⟨i, h1⟩ := by
  unfold Group.step at h
  cases hm : mapE G.stepFun G.params with
  | error e => simp [hm, Except.map] at h
  | ok ps =>
    simp only [hm, Except.map, Except.ok.injEq] at h
    subst h
    obtain ⟨hlen, hget⟩ := mapE_ok_get G.stepFun G.params ps hm
    refine ⟨rfl, ?_⟩
    intro i h1 h2 hnone
    have hval := hget i h1 h2
    rw [stepFun_no_grad G _ hnone] at hval
    exact (Except.ok.inj hval).symm

/-- Witness for C7 at a concrete input: a single parameter with no
gradient, stepped once from the initial state. -/
theorem c7_witness :
    freshG.step = .ok { freshG with num_steps := 1 } ∧
    ({ freshG with num_steps := 1 } : Group).num_steps = freshG.num_steps + 1 ∧
    ({ freshG with num_steps := 1 } : Group).params.get ⟨0, by decide⟩
      = freshG.params.get ⟨0, by decide⟩ := by
  refine ⟨rfl, ?_, ?_⟩
  · exact (c7_absent_gradient_skipped freshG _ rfl).1
  · exact (c7_absent_gradient_skipped freshG _ rfl).2 0 (by decide) (by decide) rfl

/-- Claim C8 is falsified here: on a group in its reachable
`num_steps = 0` state (the initial one: `transported = true`, one
parameter, no per-parameter state), `enter_training()` followed by
`enter_evaluation()` does not complete — `eval` raises a missing-state
`KeyError` because `true_params` does not exist yet. -/
theorem c8_counterexample :
    freshG.num_steps = 0 ∧
    freshG.train.bind Group.eval = .error "KeyError: true_params" := by
  exact ⟨rfl, rfl⟩

/-- Claim C8, amended: when `num_steps = 0`, `enter_training()` is always
a no-op; the following `enter_evaluation()` raises a missing-state error
whenever the group still exposes a parameter without a `true_params`
buffer (which is every parameter when `num_steps = 0`), and the round
trip completes leaving exposed values unchanged only for a group with no
parameters. -/
theorem c8_amended_roundtrip (G : Group) (h0 : G.num_steps = 0) :
    G.train = .ok G ∧
    (∀ p ps, G.params = p :: ps → G.transported = true → p.true_params = none →
      G.eval = .error "KeyError: true_params") ∧
    (G.params = [] → G.eval = .ok { G with transported := false }) := by
  refine ⟨?_, ?_, ?_⟩
  · simp [Group.train, h0]
  · intro p ps hp ht htp
    simp [Group.eval, ht, hp, mapE, htp, Except.map]
  · intro hp
    obtain ⟨glr, gmo, gda, gwd, gne, gde, gns, gtr, gprs⟩ := G
    simp only at hp
    subst hp
    cases gtr <;> simp [Group.eval, mapE, Except.map]

/-- Witness for C8 at a concrete input: the initial one-parameter group. -/
theorem c8_witness :
    freshG.num_steps = 0 ∧ freshG.train = .ok freshG ∧
    freshG.eval = .error "KeyError: true_params" := by
  refine ⟨rfl, (c8_amended_roundtrip freshG rfl).1, ?_⟩
  exact (c8_amended_roundtrip freshG rfl).2.1 _ [] rfl rfl rfl

/-- Claim C9: with momentum `m > 0`, a heavyball run (`nesterov = false`,
`dampening = 0`) and a Nesterov run fed the same nonzero first gradient
from the same initial value produce the same `momentum_velocity` (both
use the same recurrence, here `mv = g0` after the first step) but
different `true_params`: heavyball subtracts `lr * mv`, Nesterov
additionally subtracts `lr * m * mv` beyond its `lr * igt_velocity`
term. -/
theorem c9_nesterov_heavyball_diverge (lr m delta p0 g0 : ℚ)
    (hlr : 0 < lr) (hm : 0 < m) (hg : g0 ≠ 0) :
    firstMV ((mkGroup1 lr m 0 0 false delta p0 (some g0)).step) = some g0 ∧
    firstMV ((mkGroup1 lr m 0 0 true delta p0 (some g0)).step) = some g0 ∧
    firstTP ((mkGroup1 lr m 0 0 false delta p0 (some g0)).step)
      = some (p0 - lr * g0) ∧
    firstTP ((mkGroup1 lr m 0 0 true delta p0 (some g0)).step)
      = some (p0 - lr * g0 - lr * m * g0) ∧
    firstTP ((mkGroup1 lr m 0 0 false delta p0 (some g0)).step)
      ≠ firstTP ((mkGroup1 lr m 0 0 true delta p0 (some g0)).step) := by
  have hm' : m ≠ 0 := ne_of_gt hm
  have hHB : firstTP ((mkGroup1 lr m 0 0 false delta p0 (some g0)).step)
      = some (p0 - lr * g0) := by
    simp [mkGroup1, Group.step, Group.stepFun, mapE, stepParam, effGrad,
      updateParams, firstTP, Except.map, hm']
  have hNV : firstTP ((mkGroup1 lr m 0 0 true delta p0 (some g0)).step)
      = some (p0 - lr * g0 - lr * m * g0) := by
    simp [mkGroup1, Group.step, Group.stepFun, mapE, stepParam, effGrad,
      updateParams, firstTP, Except.map, hm']
  have hMVh : firstMV ((mkGroup1 lr m 0 0 false delta p0 (some g0)).step)
      = some g0 := by
    simp [mkGroup1, Group.step, Group.stepFun, mapE, stepParam, effGrad,
      updateParams, firstMV, Except.map, hm']
  have hMVn : firstMV ((mkGroup1 lr m 0 0 true delta p0 (some g0)).step)
      = some g0 := by
    simp [mkGroup1, Group.step, Group.stepFun, mapE, stepParam, effGrad,
      updateParams, firstMV, Except.map, hm']
  refine ⟨hMVh, hMVn, hHB, hNV, ?_⟩
  rw [hHB, hNV]
  simp only [ne_eq, Option.some.injEq]
  intro heq
  have hzero : lr * m * g0 = 0 := by linarith
  exact mul_ne_zero (mul_ne_zero (ne_of_gt hlr) hm') hg hzero

/-- Witness for C9 at a concrete input: `lr = 1`, `m = 1`, `delta = 1`,
`p0 = 0`, `g0 = 1`. -/
theorem c9_witness :
    (0 : ℚ) < 1 ∧ ((1 : ℚ) ≠ 0) ∧
    firstTP ((mkGroup1 1 1 0 0 false 1 0 (some 1)).step)
      ≠ firstTP ((mkGroup1 1 1 0 0 true 1 0 (some 1)).step) := by
  exact ⟨by norm_num, by norm_num,
    (c9_nesterov_heavyball_diverge 1 1 1 0 1 (by norm_num) (by norm_num)
      (by norm_num)).2.2.2.2⟩

/-- Claim C10: calling `enter_evaluation()` before any step call, on a
freshly constructed optimizer with at least one parameter (its group in
the initial state `transported = true`, `num_steps = 0`), raises a
missing-state error — the `true_params` buffer does not exist yet —
rather than acting as a no-op or copying anything. -/
theorem c10_eval_before_step (lr q : ℚ) (qs : List ℚ) (G : Group)
    (h : MomentumIGT.init (q :: qs) lr 0 0 0 false 1 = .ok G) :
    G.eval = .error "KeyError: true_params" := by
  have h2 : MomentumIGT.init (q :: qs) lr 0 0 0 false 1
      = .ok { lr := lr, momentum := 0, dampening := 0, weight_decay := 0,
              nesterov := false, delta := 1, num_steps := 0,
              transported := true, params := (q :: qs).map initParam } := rfl
  rw [h2] at h
  obtain rfl := Except.ok.inj h
  simp [Group.eval, mapE, initParam, Except.map]

/-- Witness for C10 at a concrete input: a one-parameter optimizer
constructed with `lr = 1`, evaluated before any step. -/
theorem c10_witness :
    MomentumIGT.init [(1 : ℚ)] 1 0 0 0 false 1
      = .ok { lr := 1, momentum := 0, dampening := 0, weight_decay := 0,
              nesterov := false, delta := 1, num_steps := 0,
              transported := true, params := [initParam 1] } ∧
    ({ lr := 1, momentum := 0, dampening := 0, weight_decay := 0,
       nesterov := false, delta := 1, num_steps := 0,
       transported := true, params := [initParam 1] } : Group).eval
      = .error "KeyError: true_params" := by
  exact ⟨rfl, c10_eval_before_step 1 1 [] _ rfl⟩

end TorchIGT
